import Mathlib

/-!
Shallow embedding of the telemetry browsing and ingestion interaction model
of the dashboard frontend: the three paginated list controllers
(TelemetryTracesList, TelemetryMetricsList, TelemetryLogsList), the upload
validator and submitter (TelemetryUpload), and the overview aggregator
(TelemetryOverview).  Stateful component code becomes explicit state
passing: each event handler is a function from the component state (the
collection of useState cells) to a new state, and each asynchronous fetch
takes the settled outcome of the awaited call as an explicit argument.
-/

namespace Telemetry

/-- JSON values as produced by JSON.parse: null, booleans, numbers,
strings, arrays and objects.  Numbers are modelled as integers, which
suffices for every property proved here. -/
inductive Json where
  | null : Json
  | bool (b : Bool) : Json
  | num (n : Int) : Json
  | str (s : String) : Json
  | arr (elems : List Json) : Json
  | obj (fields : List (String × Json)) : Json
deriving Repr

/-- A JavaScript thrown value: either an Error instance carrying a message,
or any other thrown value (which carries no usable message). -/
inductive JsError where
  | error (message : String) : JsError
  | other : JsError
deriving Repr, DecidableEq

/-- The pattern used by every catch block in the components:
err instanceof Error ? err.message : fallback. -/
def errorMessage (e : JsError) (fallback : String) : String :=
  match e with
  | .error m => m
  | .other => fallback

/-- TelemetryTraceResponse from types/telemetry. -/
structure TelemetryTraceResponse where
  trace_id : String
  span_count : Int
  upload_date : String
  uploaded_by : String
  tag_ids : List String
  metadata : Option (List (String × String))
deriving Repr, DecidableEq

/-- TelemetryMetricResponse from types/telemetry. -/
structure TelemetryMetricResponse where
  metric_id : String
  name : String
  type : String
  data_point_count : Int
  upload_date : String
  uploaded_by : String
  tag_ids : List String
  metadata : Option (List (String × String))
deriving Repr, DecidableEq

/-- TelemetryLogResponse from types/telemetry. -/
structure TelemetryLogResponse where
  log_id : String
  timestamp : String
  severity : Option String
  body : String
  upload_date : String
  uploaded_by : String
  tag_ids : List String
  metadata : Option (List (String × String))
deriving Repr, DecidableEq

/-- ListTelemetryTracesResponse from types/telemetry. -/
structure ListTelemetryTracesResponse where
  traces : List TelemetryTraceResponse
  total : Int
  skip : Int
  limit : Int
deriving Repr, DecidableEq

/-- ListTelemetryMetricsResponse from types/telemetry. -/
structure ListTelemetryMetricsResponse where
  metrics : List TelemetryMetricResponse
  total : Int
  skip : Int
  limit : Int
deriving Repr, DecidableEq

/-- ListTelemetryLogsResponse from types/telemetry. -/
structure ListTelemetryLogsResponse where
  logs : List TelemetryLogResponse
  total : Int
  skip : Int
  limit : Int
deriving Repr, DecidableEq

namespace TracesList

/-- The useState cells of TelemetryTracesList. -/
structure State where
  traces : List TelemetryTraceResponse
  loading : Bool
  error : Option String
  total : Int
  skip : Int
  limit : Int
  tagFilter : String
  nameSearch : String
deriving Repr, DecidableEq

/-- The query parameters of a listTelemetryTracesApi call as the component
passes them.  skip and limit are always passed; tagFilter and nameSearch
are passed as undefined when the filter string is empty (falsy). -/
structure Request where
  skip : Int
  limit : Int
  tagIds : Option String
  nameSearch : Option String
deriving Repr, DecidableEq

/-- The request that fetchTraces issues from a given state. -/
def fetchTracesRequest (s : State) : Request :=
  { skip := s.skip
    limit := s.limit
    tagIds := if s.tagFilter = "" then none else some s.tagFilter
    nameSearch := if s.nameSearch = "" then none else some s.nameSearch }

/-- fetchTraces: sets loading, awaits the list call (whose settled outcome
is the explicit argument), on success replaces traces and total, on failure
sets error, and finally clears loading. -/
def fetchTraces (s : State) (result : Except JsError ListTelemetryTracesResponse) : State :=
  let s1 : State := { s with loading := true }
  match result with
  | .ok response =>
      { s1 with traces := response.traces, total := response.total, loading := false }
  | .error err =>
      { s1 with error := some (errorMessage err "Failed to load traces"), loading := false }

/-- handleSearch: setSkip(0).  The skip update re-runs the fetch effect, so
the refresh caused by a search reads the updated state. -/
def handleSearch (s : State) : State :=
  { s with skip := 0 }

/-- handlePreviousPage: if skip is positive, setSkip(Math.max(0, skip - limit)). -/
def handlePreviousPage (s : State) : State :=
  if 0 < s.skip then { s with skip := max 0 (s.skip - s.limit) } else s

/-- handleNextPage: if skip + limit is below total, setSkip(skip + limit). -/
def handleNextPage (s : State) : State :=
  if s.skip + s.limit < s.total then { s with skip := s.skip + s.limit } else s

/-- States reachable from a start state by any sequence of next-page and
previous-page clicks (which touch only the skip cell). -/
inductive Reachable (s0 : State) : State → Prop
  | refl : Reachable s0 s0
  | next {s : State} : Reachable s0 s → Reachable s0 (handleNextPage s)
  | prev {s : State} : Reachable s0 s → Reachable s0 (handlePreviousPage s)

end TracesList

namespace MetricsList

/-- The useState cells of TelemetryMetricsList. -/
structure State where
  metrics : List TelemetryMetricResponse
  loading : Bool
  error : Option String
  total : Int
  skip : Int
  limit : Int
  tagFilter : String
  nameSearch : String
deriving Repr, DecidableEq

/-- The query parameters of a listTelemetryMetricsApi call as the component
passes them. -/
structure Request where
  skip : Int
  limit : Int
  tagIds : Option String
  nameSearch : Option String
deriving Repr, DecidableEq

/-- The request that fetchMetrics issues from a given state. -/
def fetchMetricsRequest (s : State) : Request :=
  { skip := s.skip
    limit := s.limit
    tagIds := if s.tagFilter = "" then none else some s.tagFilter
    nameSearch := if s.nameSearch = "" then none else some s.nameSearch }

/-- fetchMetrics: sets loading, awaits the list call, on success replaces
metrics and total, on failure sets error, and finally clears loading. -/
def fetchMetrics (s : State) (result : Except JsError ListTelemetryMetricsResponse) : State :=
  let s1 : State := { s with loading := true }
  match result with
  | .ok response =>
      { s1 with metrics := response.metrics, total := response.total, loading := false }
  | .error err =>
      { s1 with error := some (errorMessage err "Failed to load metrics"), loading := false }

/-- handleSearch of TelemetryMetricsList: setSkip(0). -/
def handleSearch (s : State) : State :=
  { s with skip := 0 }

/-- handlePreviousPage of TelemetryMetricsList. -/
def handlePreviousPage (s : State) : State :=
  if 0 < s.skip then { s with skip := max 0 (s.skip - s.limit) } else s

/-- handleNextPage of TelemetryMetricsList. -/
def handleNextPage (s : State) : State :=
  if s.skip + s.limit < s.total then { s with skip := s.skip + s.limit } else s

end MetricsList

namespace LogsList

/-- The useState cells of TelemetryLogsList. -/
structure State where
  logs : List TelemetryLogResponse
  loading : Bool
  error : Option String
  total : Int
  skip : Int
  limit : Int
  tagFilter : String
  severityFilter : String
deriving Repr, DecidableEq

/-- The query parameters of a listTelemetryLogsApi call as the component
passes them. -/
structure Request where
  skip : Int
  limit : Int
  tagIds : Option String
  severity : Option String
deriving Repr, DecidableEq

/-- The request that fetchLogs issues from a given state. -/
def fetchLogsRequest (s : State) : Request :=
  { skip := s.skip
    limit := s.limit
    tagIds := if s.tagFilter = "" then none else some s.tagFilter
    severity := if s.severityFilter = "" then none else some s.severityFilter }

/-- fetchLogs: sets loading, awaits the list call, on success replaces logs
and total, on failure sets error, and finally clears loading. -/
def fetchLogs (s : State) (result : Except JsError ListTelemetryLogsResponse) : State :=
  let s1 : State := { s with loading := true }
  match result with
  | .ok response =>
      { s1 with logs := response.logs, total := response.total, loading := false }
  | .error err =>
      { s1 with error := some (errorMessage err "Failed to load logs"), loading := false }

/-- handleSearch of TelemetryLogsList: setSkip(0). -/
def handleSearch (s : State) : State :=
  { s with skip := 0 }

/-- handlePreviousPage of TelemetryLogsList. -/
def handlePreviousPage (s : State) : State :=
  if 0 < s.skip then { s with skip := max 0 (s.skip - s.limit) } else s

/-- handleNextPage of TelemetryLogsList. -/
def handleNextPage (s : State) : State :=
  if s.skip + s.limit < s.total then { s with skip := s.skip + s.limit } else s

end LogsList

/-- The three telemetry kinds: the activeTab values of TelemetryUpload and
the three collections the overview aggregates. -/
inductive TelemetryKind where
  | traces : TelemetryKind
  | metrics : TelemetryKind
  | logs : TelemetryKind
deriving Repr, DecidableEq

namespace Upload

/-- The useState cells of TelemetryUpload: the active tab, the
loading/error/success message cells, and one input buffer per kind. -/
structure State where
  activeTab : TelemetryKind
  loading : Bool
  error : Option String
  success : Option String
  tracesData : String
  metricsData : String
  logsData : String
deriving Repr, DecidableEq

/-- The input buffer of a given kind. -/
def dataFor (s : State) (k : TelemetryKind) : String :=
  match k with
  | .traces => s.tracesData
  | .metrics => s.metricsData
  | .logs => s.logsData

/-- getCurrentData: the input buffer of the active tab. -/
def getCurrentData (s : State) : String :=
  dataFor s s.activeTab

/-- Clearing the input buffer of the active tab, as the per-kind
setTracesData / setMetricsData / setLogsData calls with the empty string do. -/
def clearCurrentData (s : State) : State :=
  match s.activeTab with
  | .traces => { s with tracesData := "" }
  | .metrics => { s with metricsData := "" }
  | .logs => { s with logsData := "" }

/-- The opening statements of handleUpload: setLoading(true),
setError(null), setSuccess(null). -/
def resetMessages (s : State) : State :=
  { s with loading := true, error := none, success := none }

/-- The word used in the success message for each kind:
trace(s) / metric(s) / log(s). -/
def kindLabel (k : TelemetryKind) : String :=
  match k with
  | .traces => "trace"
  | .metrics => "metric"
  | .logs => "log"

/-- The success message built from the length of the echoed result list. -/
def successMessage (k : TelemetryKind) (n : Nat) : String :=
  "Successfully uploaded " ++ toString n ++ " " ++ kindLabel k ++ "(s)"

/-- Array.isArray(parsed) ? parsed : [parsed]. -/
def normalizePayload (parsed : Json) : List Json :=
  match parsed with
  | .arr elems => elems
  | j => [j]

/-- handleUpload.  The three switch branches are identical up to the kind,
so they are embedded once, indexed by the active tab.  The settled outcome
of JSON.parse on the active buffer and the settled outcome of the per-kind
upload call are explicit arguments; the echoed created summaries are kept
as raw JSON values since the component only reads their count.  The second
component of the result records the upload requests handed to the API
client, in order: empty when the parse throws, otherwise the single
normalized batch for the active kind. -/
def handleUpload (parseResult : Except JsError Json)
    (uploadResult : Except JsError (List Json))
    (s : State) : State × List (TelemetryKind × List Json) :=
  let s1 : State := resetMessages s
  match parseResult with
  | .error err =>
      ({ s1 with error := some (errorMessage err "Upload failed"), loading := false }, [])
  | .ok parsed =>
      let payload := normalizePayload parsed
      match uploadResult with
      | .error err =>
          ({ s1 with error := some (errorMessage err "Upload failed"), loading := false },
           [(s.activeTab, payload)])
      | .ok result =>
          (clearCurrentData
             { s1 with success := some (successMessage s.activeTab result.length),
                       loading := false },
           [(s.activeTab, payload)])

end Upload

namespace Overview

/-- The query parameters of a list call as TelemetryOverview passes them:
only organizationId and limit are supplied; skip and the filters are
omitted (undefined). -/
structure ListCallParams where
  organizationId : String
  skip : Option Int
  limit : Option Int
  tagIds : Option String
  search : Option String
deriving Repr, DecidableEq

/-- Modelled from the spec: the Telemetry API Client (src/utils/api, not
present under src) gives an omitted skip parameter the default 0. -/
def effectiveSkip (p : ListCallParams) : Int :=
  p.skip.getD 0

/-- The three list calls fetchOverviewData issues, in order: traces,
metrics and logs, each with limit 5 and nothing else. -/
def overviewCalls (organizationId : String) : List (TelemetryKind × ListCallParams) :=
  [ (.traces,
     { organizationId := organizationId, skip := none, limit := some 5,
       tagIds := none, search := none }),
    (.metrics,
     { organizationId := organizationId, skip := none, limit := some 5,
       tagIds := none, search := none }),
    (.logs,
     { organizationId := organizationId, skip := none, limit := some 5,
       tagIds := none, search := none }) ]

/-- The useState cells of TelemetryOverview. -/
structure State where
  tracesData : Option ListTelemetryTracesResponse
  metricsData : Option ListTelemetryMetricsResponse
  logsData : Option ListTelemetryLogsResponse
  loading : Bool
  error : Option String
deriving Repr, DecidableEq

/-- The initial overview state: no data, loading, no error. -/
def initialState : State :=
  { tracesData := none, metricsData := none, logsData := none,
    loading := true, error := none }

/-- Promise.all over three already-settled outcomes: resolves with the
triple when all three resolve, otherwise rejects.  When several reject the
browser rejects with the first to settle; here the first in argument order
is taken, a choice none of the proved properties depends on. -/
def promiseAll3 {e a b c : Type} :
    Except e a → Except e b → Except e c → Except e (a × b × c)
  | .ok x, .ok y, .ok z => .ok (x, y, z)
  | .error err, _, _ => .error err
  | .ok _, .error err, _ => .error err
  | .ok _, .ok _, .error err => .error err

/-- fetchOverviewData: sets loading, awaits Promise.all of the three list
calls (settled outcomes passed explicitly), on success stores all three
responses, on failure sets a single error, and finally clears loading. -/
def fetchOverviewData (rT : Except JsError ListTelemetryTracesResponse)
    (rM : Except JsError ListTelemetryMetricsResponse)
    (rL : Except JsError ListTelemetryLogsResponse)
    (s : State) : State :=
  let s1 : State := { s with loading := true }
  match promiseAll3 rT rM rL with
  | .ok (t, m, l) =>
      { s1 with tracesData := some t, metricsData := some m, logsData := some l,
                loading := false }
  | .error err =>
      { s1 with error := some (errorMessage err "Failed to load telemetry data"),
                loading := false }

end Overview

/-- A concrete traces list state on the first page: 45 results, page size 20. -/
def tracesDemoStart : TracesList.State :=
  { traces := [], loading := false, error := none, total := 45, skip := 0,
    limit := 20, tagFilter := "", nameSearch := "" }

/-- A concrete traces list state on the second page. -/
def tracesPageTwo : TracesList.State :=
  { tracesDemoStart with skip := 20 }

/-- A concrete metrics list state on the second page. -/
def metricsPageTwo : MetricsList.State :=
  { metrics := [], loading := false, error := none, total := 45, skip := 20,
    limit := 20, tagFilter := "", nameSearch := "" }

/-- A concrete logs list state on the second page. -/
def logsPageTwo : LogsList.State :=
  { logs := [], loading := false, error := none, total := 45, skip := 20,
    limit := 20, tagFilter := "", severityFilter := "" }

/-- A concrete upload state on the metrics tab with all three buffers
filled. -/
def uploadDemo : Upload.State :=
  { activeTab := .metrics, loading := false, error := none, success := none,
    tracesData := "sample traces", metricsData := "sample metrics",
    logsData := "sample logs" }

/-- A concrete parsed metric object. -/
def demoMetricJson : Json :=
  Json.obj [("name", Json.str "example_counter"), ("type", Json.str "counter")]

/-!
Helper lemmas: next-page and previous-page clicks touch only the skip cell,
so total and limit are constant along any click sequence.
-/

theorem tracesNext_total (s : TracesList.State) :
    (TracesList.handleNextPage s).total = s.total := by
  unfold TracesList.handleNextPage
  split <;> rfl

theorem tracesNext_limit (s : TracesList.State) :
    (TracesList.handleNextPage s).limit = s.limit := by
  unfold TracesList.handleNextPage
  split <;> rfl

theorem tracesPrev_total (s : TracesList.State) :
    (TracesList.handlePreviousPage s).total = s.total := by
  unfold TracesList.handlePreviousPage
  split <;> rfl

theorem tracesPrev_limit (s : TracesList.State) :
    (TracesList.handlePreviousPage s).limit = s.limit := by
  unfold TracesList.handlePreviousPage
  split <;> rfl

theorem tracesReachable_fixed (s0 s : TracesList.State)
    (hr : TracesList.Reachable s0 s) :
    s.total = s0.total ∧ s.limit = s0.limit := by
  induction hr with
  | refl => exact ⟨rfl, rfl⟩
  | @next s hr' ih => rw [tracesNext_total, tracesNext_limit]; exact ih
  | @prev s hr' ih => rw [tracesPrev_total, tracesPrev_limit]; exact ih

theorem tracesReachable_inv (s0 s : TracesList.State)
    (h0 : s0.skip = 0) (hlim : s0.limit = 20)
    (hr : TracesList.Reachable s0 s) :
    0 ≤ s.skip ∧ (20 : Int) ∣ s.skip ∧ (0 < s0.total → s.skip < s0.total) := by
  induction hr with
  | refl =>
      refine ⟨le_of_eq h0.symm, ?_, fun ht => ?_⟩
      · rw [h0]; exact dvd_zero 20
      · rw [h0]; exact ht
  | @next s hr' ih =>
      obtain ⟨ih1, ih2, ih3⟩ := ih
      have hfix := tracesReachable_fixed s0 s hr'
      have hl20 : s.limit = 20 := hfix.2.trans hlim
      unfold TracesList.handleNextPage
      split
      · rename_i hc
        refine ⟨?_, ?_, fun ht => ?_⟩
        · show 0 ≤ s.skip + s.limit
          rw [hl20]; linarith
        · show (20 : Int) ∣ s.skip + s.limit
          rw [hl20]; exact dvd_add ih2 dvd_rfl
        · show s.skip + s.limit < s0.total
          rw [← hfix.1]; exact hc
      · exact ⟨ih1, ih2, ih3⟩
  | @prev s hr' ih =>
      obtain ⟨ih1, ih2, ih3⟩ := ih
      have hfix := tracesReachable_fixed s0 s hr'
      have hl20 : s.limit = 20 := hfix.2.trans hlim
      unfold TracesList.handlePreviousPage
      split
      · rename_i hc
        have h20 : (20 : Int) ≤ s.skip := Int.le_of_dvd hc ih2
        have hmax : max 0 (s.skip - s.limit) = s.skip - s.limit := by
          rw [hl20]; exact max_eq_right (by linarith)
        refine ⟨?_, ?_, fun ht => ?_⟩
        · show 0 ≤ max 0 (s.skip - s.limit)
          exact le_max_left 0 _
        · show (20 : Int) ∣ max 0 (s.skip - s.limit)
          rw [hmax, hl20]; exact dvd_sub ih2 dvd_rfl
        · show max 0 (s.skip - s.limit) < s0.total
          have hlt := ih3 ht
          rw [hmax, hl20]; linarith
      · exact ⟨ih1, ih2, ih3⟩

/-- C1: from any controller state with skip positive and any current
filters, the Search handler sets skip to 0 and the list request the
resulting refresh issues carries skip = 0, for each of the three list
controllers. -/
theorem c1_search_resets_skip
    (st : TracesList.State) (sm : MetricsList.State) (sl : LogsList.State)
    (ht : 0 < st.skip) (hm : 0 < sm.skip) (hl : 0 < sl.skip) :
    (TracesList.handleSearch st).skip = 0 ∧
    (TracesList.fetchTracesRequest (TracesList.handleSearch st)).skip = 0 ∧
    (MetricsList.handleSearch sm).skip = 0 ∧
    (MetricsList.fetchMetricsRequest (MetricsList.handleSearch sm)).skip = 0 ∧
    (LogsList.handleSearch sl).skip = 0 ∧
    (LogsList.fetchLogsRequest (LogsList.handleSearch sl)).skip = 0 :=
  ⟨rfl, rfl, rfl, rfl, rfl, rfl⟩

/-- Witness for C1 at concrete second-page states of all three controllers. -/
theorem c1_search_resets_skip_witness :
    0 < tracesPageTwo.skip ∧ 0 < metricsPageTwo.skip ∧ 0 < logsPageTwo.skip ∧
    ((TracesList.handleSearch tracesPageTwo).skip = 0 ∧
     (TracesList.fetchTracesRequest (TracesList.handleSearch tracesPageTwo)).skip = 0 ∧
     (MetricsList.handleSearch metricsPageTwo).skip = 0 ∧
     (MetricsList.fetchMetricsRequest (MetricsList.handleSearch metricsPageTwo)).skip = 0 ∧
     (LogsList.handleSearch logsPageTwo).skip = 0 ∧
     (LogsList.fetchLogsRequest (LogsList.handleSearch logsPageTwo)).skip = 0) :=
  ⟨by decide, by decide, by decide,
   c1_search_resets_skip tracesPageTwo metricsPageTwo logsPageTwo
     (by decide) (by decide) (by decide)⟩

/-- C2: along any sequence of next-page and previous-page clicks from
skip = 0 with page size 20 and a fixed nonnegative total, skip stays a
nonnegative multiple of 20 and, when total is positive, stays below total;
next-page is a no-op once skip + limit reaches total, previous-page is a
no-op at skip = 0 and otherwise yields max 0 (skip - limit), which is never
negative. -/
theorem c2_pagination_bounds (s0 s : TracesList.State)
    (h0 : s0.skip = 0) (hlim : s0.limit = 20) (htot : 0 ≤ s0.total)
    (hr : TracesList.Reachable s0 s) :
    0 ≤ s.skip ∧ (20 : Int) ∣ s.skip ∧
    (0 < s0.total → s.skip < s0.total) ∧
    (s.total ≤ s.skip + s.limit → TracesList.handleNextPage s = s) ∧
    (s.skip = 0 → TracesList.handlePreviousPage s = s) ∧
    (0 < s.skip → (TracesList.handlePreviousPage s).skip = max 0 (s.skip - s.limit)) ∧
    0 ≤ (TracesList.handlePreviousPage s).skip := by
  obtain ⟨h1, h2, h3⟩ := tracesReachable_inv s0 s h0 hlim hr
  refine ⟨h1, h2, h3, ?_, ?_, ?_, ?_⟩
  · intro hno
    unfold TracesList.handleNextPage
    rw [if_neg (not_lt.mpr hno)]
  · intro hz
    unfold TracesList.handlePreviousPage
    rw [if_neg (by rw [hz]; exact lt_irrefl 0)]
  · intro hpos
    unfold TracesList.handlePreviousPage
    rw [if_pos hpos]
  · unfold TracesList.handlePreviousPage
    split
    · exact le_max_left 0 _
    · exact h1

/-- Witness for C2: one next-page click from a concrete first-page state
with 45 results. -/
theorem c2_pagination_bounds_witness :
    tracesDemoStart.skip = 0 ∧ tracesDemoStart.limit = 20 ∧
    0 ≤ tracesDemoStart.total ∧
    TracesList.Reachable tracesDemoStart (TracesList.handleNextPage tracesDemoStart) ∧
    (0 ≤ (TracesList.handleNextPage tracesDemoStart).skip ∧
     (20 : Int) ∣ (TracesList.handleNextPage tracesDemoStart).skip ∧
     (0 < tracesDemoStart.total →
       (TracesList.handleNextPage tracesDemoStart).skip < tracesDemoStart.total) ∧
     ((TracesList.handleNextPage tracesDemoStart).total ≤
        (TracesList.handleNextPage tracesDemoStart).skip +
          (TracesList.handleNextPage tracesDemoStart).limit →
       TracesList.handleNextPage (TracesList.handleNextPage tracesDemoStart) =
         TracesList.handleNextPage tracesDemoStart) ∧
     ((TracesList.handleNextPage tracesDemoStart).skip = 0 →
       TracesList.handlePreviousPage (TracesList.handleNextPage tracesDemoStart) =
         TracesList.handleNextPage tracesDemoStart) ∧
     (0 < (TracesList.handleNextPage tracesDemoStart).skip →
       (TracesList.handlePreviousPage (TracesList.handleNextPage tracesDemoStart)).skip =
         max 0 ((TracesList.handleNextPage tracesDemoStart).skip -
           (TracesList.handleNextPage tracesDemoStart).limit)) ∧
     0 ≤ (TracesList.handlePreviousPage (TracesList.handleNextPage tracesDemoStart)).skip) :=
  ⟨rfl, rfl, by decide, TracesList.Reachable.next TracesList.Reachable.refl,
   c2_pagination_bounds tracesDemoStart _ rfl rfl (by decide)
     (TracesList.Reachable.next TracesList.Reachable.refl)⟩

/-- C3: when a fetch fails, each list controller keeps its items and total,
sets error to the failure message, and ends with loading false; loading is
cleared on completion whether the fetch succeeds or fails. -/
theorem c3_stale_on_error
    (st : TracesList.State) (sm : MetricsList.State) (sl : LogsList.State)
    (e : JsError)
    (rt : Except JsError ListTelemetryTracesResponse)
    (rm : Except JsError ListTelemetryMetricsResponse)
    (rl : Except JsError ListTelemetryLogsResponse) :
    (TracesList.fetchTraces st (.error e)).traces = st.traces ∧
    (TracesList.fetchTraces st (.error e)).total = st.total ∧
    (TracesList.fetchTraces st (.error e)).error =
      some (errorMessage e "Failed to load traces") ∧
    (TracesList.fetchTraces st (.error e)).loading = false ∧
    (MetricsList.fetchMetrics sm (.error e)).metrics = sm.metrics ∧
    (MetricsList.fetchMetrics sm (.error e)).total = sm.total ∧
    (MetricsList.fetchMetrics sm (.error e)).error =
      some (errorMessage e "Failed to load metrics") ∧
    (MetricsList.fetchMetrics sm (.error e)).loading = false ∧
    (LogsList.fetchLogs sl (.error e)).logs = sl.logs ∧
    (LogsList.fetchLogs sl (.error e)).total = sl.total ∧
    (LogsList.fetchLogs sl (.error e)).error =
      some (errorMessage e "Failed to load logs") ∧
    (LogsList.fetchLogs sl (.error e)).loading = false ∧
    (TracesList.fetchTraces st rt).loading = false ∧
    (MetricsList.fetchMetrics sm rm).loading = false ∧
    (LogsList.fetchLogs sl rl).loading = false := by
  refine ⟨rfl, rfl, rfl, rfl, rfl, rfl, rfl, rfl, rfl, rfl, rfl, rfl, ?_, ?_, ?_⟩
  · cases rt <;> rfl
  · cases rm <;> rfl
  · cases rl <;> rfl

/-- C9: a successful fetch replaces items and total but leaves the error
cell exactly as it was, in each of the three list controllers, so a stale
error message persists alongside fresh data. -/
theorem c9_error_persists_on_success
    (st : TracesList.State) (sm : MetricsList.State) (sl : LogsList.State)
    (rt : ListTelemetryTracesResponse)
    (rm : ListTelemetryMetricsResponse)
    (rl : ListTelemetryLogsResponse) :
    (TracesList.fetchTraces st (.ok rt)).error = st.error ∧
    (TracesList.fetchTraces st (.ok rt)).traces = rt.traces ∧
    (TracesList.fetchTraces st (.ok rt)).total = rt.total ∧
    (MetricsList.fetchMetrics sm (.ok rm)).error = sm.error ∧
    (MetricsList.fetchMetrics sm (.ok rm)).metrics = rm.metrics ∧
    (MetricsList.fetchMetrics sm (.ok rm)).total = rm.total ∧
    (LogsList.fetchLogs sl (.ok rl)).error = sl.error ∧
    (LogsList.fetchLogs sl (.ok rl)).logs = rl.logs ∧
    (LogsList.fetchLogs sl (.ok rl)).total = rl.total :=
  ⟨rfl, rfl, rfl, rfl, rfl, rfl, rfl, rfl, rfl⟩

/-- C4: a submit whose buffer parses to a single non-array object sends a
batch of exactly that one object, and one whose buffer parses to an array
sends exactly its elements, unchanged and in order, whatever the upload
call then returns. -/
theorem c4_upload_array_normalization :
    (∀ (fields : List (String × Json)) (ur : Except JsError (List Json))
       (s : Upload.State),
       (Upload.handleUpload (.ok (.obj fields)) ur s).2 =
         [(s.activeTab, [Json.obj fields])]) ∧
    (∀ (elems : List Json) (ur : Except JsError (List Json))
       (s : Upload.State),
       (Upload.handleUpload (.ok (.arr elems)) ur s).2 =
         [(s.activeTab, elems)]) := by
  constructor
  · intro fields ur s
    cases ur <;> rfl
  · intro elems ur s
    cases ur <;> rfl

/-- C5: when JSON.parse throws, the submit surfaces the parse error message,
hands no request to the API client, and leaves every input buffer as it
was. -/
theorem c5_parse_failure_isolation (msg : String)
    (ur : Except JsError (List Json)) (s : Upload.State) :
    (Upload.handleUpload (.error (.error msg)) ur s).2 = [] ∧
    (Upload.handleUpload (.error (.error msg)) ur s).1.error = some msg ∧
    (Upload.handleUpload (.error (.error msg)) ur s).1.success = none ∧
    (Upload.handleUpload (.error (.error msg)) ur s).1.tracesData = s.tracesData ∧
    (Upload.handleUpload (.error (.error msg)) ur s).1.metricsData = s.metricsData ∧
    (Upload.handleUpload (.error (.error msg)) ur s).1.logsData = s.logsData :=
  ⟨rfl, rfl, rfl, rfl, rfl, rfl⟩

/-- C6: when the upload call rejects with an Error, every input buffer
keeps its pre-submit value, the error message is surfaced verbatim, and no
success message is set. -/
theorem c6_upload_failure_preserves_buffer (parsed : Json) (msg : String)
    (s : Upload.State) :
    (Upload.handleUpload (.ok parsed) (.error (.error msg)) s).1.tracesData =
      s.tracesData ∧
    (Upload.handleUpload (.ok parsed) (.error (.error msg)) s).1.metricsData =
      s.metricsData ∧
    (Upload.handleUpload (.ok parsed) (.error (.error msg)) s).1.logsData =
      s.logsData ∧
    (Upload.handleUpload (.ok parsed) (.error (.error msg)) s).1.error = some msg ∧
    (Upload.handleUpload (.ok parsed) (.error (.error msg)) s).1.success = none :=
  ⟨rfl, rfl, rfl, rfl, rfl⟩

/-- C7: when the upload call resolves with a list of created summaries, the
active kind's input buffer is cleared, the success message reports the
count of that list with the kind word, and the buffers of the two inactive
kinds are unchanged. -/
theorem c7_upload_success_clears_buffer (parsed : Json) (result : List Json)
    (s : Upload.State) :
    Upload.getCurrentData (Upload.handleUpload (.ok parsed) (.ok result) s).1 = "" ∧
    (Upload.handleUpload (.ok parsed) (.ok result) s).1.success =
      some ("Successfully uploaded " ++ toString result.length ++ " " ++
        Upload.kindLabel s.activeTab ++ "(s)") ∧
    (∀ k : TelemetryKind,
       Upload.dataFor (Upload.handleUpload (.ok parsed) (.ok result) s).1 k =
         if k = s.activeTab then "" else Upload.dataFor s k) := by
  obtain ⟨tab, lo, er, su, td, md, ld⟩ := s
  cases tab <;>
    exact ⟨rfl, rfl, fun k => by cases k <;> rfl⟩

/-- C10: handleUpload begins by turning on loading and resetting both
messages, so its result only depends on the reset state; after completion
exactly one of error and success is set, and success is set precisely when
both the parse and the upload call succeeded. -/
theorem c10_upload_message_exclusivity (pr : Except JsError Json)
    (ur : Except JsError (List Json)) (s : Upload.State) :
    (Upload.resetMessages s).error = none ∧
    (Upload.resetMessages s).success = none ∧
    Upload.handleUpload pr ur s = Upload.handleUpload pr ur (Upload.resetMessages s) ∧
    (((Upload.handleUpload pr ur s).1.error = none ∧
      (Upload.handleUpload pr ur s).1.success ≠ none) ∨
     ((Upload.handleUpload pr ur s).1.error ≠ none ∧
      (Upload.handleUpload pr ur s).1.success = none)) ∧
    ((Upload.handleUpload pr ur s).1.success ≠ none ↔
      pr.isOk = true ∧ ur.isOk = true) := by
  obtain ⟨tab, lo, er, su, td, md, ld⟩ := s
  cases pr <;> cases ur <;> cases tab <;>
    simp [Upload.handleUpload, Upload.resetMessages, Upload.clearCurrentData,
      Except.isOk, Except.toBool]

/-- Witness for C10 at a concrete successful submit on the metrics tab. -/
theorem c10_upload_message_exclusivity_witness :
    (Upload.resetMessages uploadDemo).error = none ∧
    (Upload.resetMessages uploadDemo).success = none ∧
    Upload.handleUpload (.ok demoMetricJson) (.ok [demoMetricJson]) uploadDemo =
      Upload.handleUpload (.ok demoMetricJson) (.ok [demoMetricJson])
        (Upload.resetMessages uploadDemo) ∧
    (((Upload.handleUpload (.ok demoMetricJson) (.ok [demoMetricJson]) uploadDemo).1.error = none ∧
      (Upload.handleUpload (.ok demoMetricJson) (.ok [demoMetricJson]) uploadDemo).1.success ≠ none) ∨
     ((Upload.handleUpload (.ok demoMetricJson) (.ok [demoMetricJson]) uploadDemo).1.error ≠ none ∧
      (Upload.handleUpload (.ok demoMetricJson) (.ok [demoMetricJson]) uploadDemo).1.success = none)) ∧
    ((Upload.handleUpload (.ok demoMetricJson) (.ok [demoMetricJson]) uploadDemo).1.success ≠ none ↔
      (Except.ok (ε := JsError) demoMetricJson).isOk = true ∧
      (Except.ok (ε := JsError) [demoMetricJson]).isOk = true) :=
  c10_upload_message_exclusivity (.ok demoMetricJson) (.ok [demoMetricJson]) uploadDemo

/-- C8: the overview issues exactly three list calls, for traces, metrics
and logs in that order, each with limit 5, defaulted skip 0 and no filters;
when all three resolve, all three responses are stored; when any one
rejects, a single combined error is reported and none of the three result
cells is populated. -/
theorem c8_overview_all_or_nothing :
    (∀ orgId : String,
       (Overview.overviewCalls orgId).map Prod.fst =
         [TelemetryKind.traces, TelemetryKind.metrics, TelemetryKind.logs] ∧
       (Overview.overviewCalls orgId).map
           (fun c => (Overview.effectiveSkip c.2, c.2.limit, c.2.tagIds, c.2.search)) =
         [((0 : Int), some 5, none, none), ((0 : Int), some 5, none, none),
          ((0 : Int), some 5, none, none)]) ∧
    (∀ (t : ListTelemetryTracesResponse) (m : ListTelemetryMetricsResponse)
       (l : ListTelemetryLogsResponse) (s : Overview.State),
       Overview.fetchOverviewData (.ok t) (.ok m) (.ok l) s =
         { s with tracesData := some t, metricsData := some m,
                  logsData := some l, loading := false }) ∧
    (∀ (e : JsError) (rM : Except JsError ListTelemetryMetricsResponse)
       (rL : Except JsError ListTelemetryLogsResponse),
       (Overview.fetchOverviewData (.error e) rM rL Overview.initialState).tracesData = none ∧
       (Overview.fetchOverviewData (.error e) rM rL Overview.initialState).metricsData = none ∧
       (Overview.fetchOverviewData (.error e) rM rL Overview.initialState).logsData = none ∧
       (Overview.fetchOverviewData (.error e) rM rL Overview.initialState).error =
         some (errorMessage e "Failed to load telemetry data") ∧
       (Overview.fetchOverviewData (.error e) rM rL Overview.initialState).loading = false) ∧
    (∀ (t : ListTelemetryTracesResponse) (e : JsError)
       (rL : Except JsError ListTelemetryLogsResponse),
       (Overview.fetchOverviewData (.ok t) (.error e) rL Overview.initialState).tracesData = none ∧
       (Overview.fetchOverviewData (.ok t) (.error e) rL Overview.initialState).metricsData = none ∧
       (Overview.fetchOverviewData (.ok t) (.error e) rL Overview.initialState).logsData = none ∧
       (Overview.fetchOverviewData (.ok t) (.error e) rL Overview.initialState).error =
         some (errorMessage e "Failed to load telemetry data") ∧
       (Overview.fetchOverviewData (.ok t) (.error e) rL Overview.initialState).loading = false) ∧
    (∀ (t : ListTelemetryTracesResponse) (m : ListTelemetryMetricsResponse)
       (e : JsError),
       (Overview.fetchOverviewData (.ok t) (.ok m) (.error e) Overview.initialState).tracesData = none ∧
       (Overview.fetchOverviewData (.ok t) (.ok m) (.error e) Overview.initialState).metricsData = none ∧
       (Overview.fetchOverviewData (.ok t) (.ok m) (.error e) Overview.initialState).logsData = none ∧
       (Overview.fetchOverviewData (.ok t) (.ok m) (.error e) Overview.initialState).error =
         some (errorMessage e "Failed to load telemetry data") ∧
       (Overview.fetchOverviewData (.ok t) (.ok m) (.error e) Overview.initialState).loading = false) := by
  refine ⟨fun orgId => ⟨rfl, rfl⟩, fun t m l s => rfl, ?_, ?_, ?_⟩
  · intro e rM rL
    cases rM <;> cases rL <;> exact ⟨rfl, rfl, rfl, rfl, rfl⟩
  · intro t e rL
    cases rL <;> exact ⟨rfl, rfl, rfl, rfl, rfl⟩
  · intro t m e
    exact ⟨rfl, rfl, rfl, rfl, rfl⟩

end Telemetry
